import Mathlib

/-!
Shallow embedding of `src/indi-rpicam/mmalcamera.cpp` (the MMALCamera class
of the indi-rpicam driver) and verification of its specification claims.

The hardware (MMAL) layer is modelled as an oracle supplying, for each
parameter set/get call, whether it returns `MMAL_SUCCESS` (a `Bool`), and
the values returned by get calls.  Each embedded operation returns the
ordered list of hardware interactions it performed (its trace) together
with an optional error message: `MMALException::throw_if` aborts the C++
function with the given message, which we model as an error state that
short-circuits the remainder of the function.

Machine integers: `shutter_speed` and the read-back shutter value are
32-bit unsigned (`mmal_port_parameter_set_uint32` / `get_uint32`), so
arithmetic on them in the tolerance check at mmalcamera.cpp:167 is reduced
modulo 2^32.  `MMAL_RATIONAL_T` holds two `int32_t` fields; the values the
driver stores in them are small, so they are modelled as `Int`.
-/

/-- Mirror of `MMAL_RATIONAL_T`: a numerator/denominator pair of `int32_t`. -/
structure MMAL_RATIONAL where
  num : Int
  den : Int
deriving DecidableEq, Repr

/-! ## Shutter-speed tolerance check (mmalcamera.cpp:163-169)

The C++ condition is
`actual_shutter_speed < shutter_speed - 100000 || actual_shutter_speed > shutter_speed + 100000`
where both operands are `uint32_t`, so both the subtraction and the
addition wrap modulo 2^32. -/

/-- 2^32, the modulus of `uint32_t` arithmetic. -/
def UINT32_MOD : Nat := 4294967296

/-- The warning condition at mmalcamera.cpp:167, with the `uint32_t`
subtraction `shutter_speed - 100000` and addition `shutter_speed + 100000`
reduced modulo 2^32 exactly as C does. -/
def shutter_mismatch (shutter_speed actual_shutter_speed : Nat) : Bool :=
  decide (actual_shutter_speed < (shutter_speed + (UINT32_MOD - 100000)) % UINT32_MOD)
  || decide ((shutter_speed + 100000) % UINT32_MOD < actual_shutter_speed)

/-! ## Frame-rate regime selection (mmalcamera.cpp:171-184) -/

/-- The `low`/`high` FPS pair computed from `shutter_speed` and the default
bounds saved at construction (mmalcamera.cpp:172-184). -/
def deriveFpsRange (shutter_speed : Nat) (fps_low fps_high : MMAL_RATIONAL) :
    MMAL_RATIONAL × MMAL_RATIONAL :=
  if shutter_speed > 6000000 then
    (⟨5, 1000⟩, ⟨166, 1000⟩)
  else if shutter_speed > 1000000 then
    (⟨167, 1000⟩, ⟨999, 1000⟩)
  else
    (fps_low, fps_high)

/-! ## Analog-gain conversion (mmalcamera.cpp:196)

`static_cast<int32_t>(gain * 65536)` truncates the product toward zero.
The gain is modelled as an exact rational; dyadic values representable in
the source's floating type behave identically under scaling by 65536. -/

/-- Truncation toward zero of a rational, the semantics of C's
`static_cast<int32_t>` applied to a floating value: `Int.tdiv` is
truncating division and `q.den` is positive. -/
def ratTruncToZero (q : ℚ) : Int :=
  Int.tdiv q.num (q.den : Int)

/-- The exact rational committed for `MMAL_PARAMETER_ANALOG_GAIN`
at mmalcamera.cpp:196. -/
def analogGainRational (gain : ℚ) : MMAL_RATIONAL :=
  ⟨ratTruncToZero (gain * 65536), 65536⟩

/-! ## The parameter-apply sequence `MMALCamera::set_camera_parameters`
(mmalcamera.cpp:131-200), non-`USE_ISO` build.

The function is a straight line of call-then-`throw_if` statements, plus
two conditional diagnostic warnings.  We embed it as a list of steps in
source order, interpreted by `runSteps`; this keeps the step order and
the per-step values and error messages visible for comparison with the
source while letting the proofs reason step by step. -/

/-- The parameters touched by `set_camera_parameters`, in source order. -/
inductive Param where
  | awbMode
  | saturation
  | digitalGain
  | brightness
  | exposureMode
  | inputCrop
  | zeroCopy
  | rawCapture
  | statsPass
  | shutterSpeed
  | fpsRange
  | analogGain
deriving DecidableEq, Repr

/-- One observable hardware interaction of `set_camera_parameters`. -/
inductive Event where
  | set (p : Param)
  | setRational (p : Param) (num den : Int)
  | setCrop (x y w h : Int)
  | bufferSizeToRecommended
  | setBool (p : Param) (v : Bool)
  | setShutter (microseconds : Nat)
  | setFpsRange (low high : MMAL_RATIONAL)
  | shutterWarning (requested actual : Nat)
  | fpsWarning (lowSet highSet lowGot highGot : MMAL_RATIONAL)
deriving DecidableEq, Repr

/-- Running state of a straight-line MMAL call sequence: the trace so far
and, once a `throw_if` has fired, the pending error message. -/
abbrev PState := List Event × Option String

/-- One source statement of the form call-then-`throw_if`: when no error is
pending, the interactions `ev` are recorded (the call is made with its
arguments regardless of its outcome) and, if the call did not return
`MMAL_SUCCESS`, the exception message `msg` becomes the error.  When an
error is already pending the C++ function has exited, so the state is
unchanged. -/
def pstep (s : PState) (ev : List Event) (ok : Bool) (msg : String) : PState :=
  match s with
  | (t, some e) => (t, some e)
  | (t, none) => (t ++ ev, if ok then none else some msg)

/-- A conditional diagnostic `fprintf` (the tolerance warnings at
mmalcamera.cpp:167-169 and 189-193): when no error is pending and `cond`
holds, the warning is recorded; it never raises an error. -/
def pwarn (s : PState) (cond : Bool) (ev : Event) : PState :=
  match s with
  | (t, some e) => (t, some e)
  | (t, none) => (if cond then t ++ [ev] else t, none)

/-- One statement of the embedded sequence: either a hardware call guarded
by `throw_if`, or a conditional diagnostic warning. -/
inductive CallStep where
  | call (ev : List Event) (ok : Bool) (msg : String)
  | warn (cond : Bool) (ev : Event)

/-- Interpret the statements in order. -/
def runSteps : List CallStep → PState → PState
  | [], s => s
  | CallStep.call ev ok msg :: rest, s => runSteps rest (pstep s ev ok msg)
  | CallStep.warn cond ev :: rest, s => runSteps rest (pwarn s cond ev)

/-- All interactions a step can record. -/
def stepEvents : CallStep → List Event
  | CallStep.call ev _ _ => ev
  | CallStep.warn _ ev => [ev]

/-- The interactions a step records when it is reached with no pending
error. -/
def stepOkEvents : CallStep → List Event
  | CallStep.call ev _ _ => ev
  | CallStep.warn cond ev => if cond then [ev] else []

/-- Whether a step leaves the error state clear. -/
def stepOk : CallStep → Bool
  | CallStep.call _ ok _ => ok
  | CallStep.warn _ _ => true

/-- Concatenation of the event lists of a step sequence. -/
def concatEvents (f : CallStep → List Event) : List CallStep → List Event
  | [] => []
  | c :: rest => f c ++ concatEvents f rest

/-- The fields of `MMALCamera` read by `set_camera_parameters`:
`shutter_speed`, `gain`, and the default FPS bounds saved at
construction (mmalcamera.cpp:76-77). -/
structure CamState where
  shutter_speed : Nat
  gain : ℚ
  fps_low : MMAL_RATIONAL
  fps_high : MMAL_RATIONAL

/-- Hardware oracle for `set_camera_parameters`: whether each set call
returns `MMAL_SUCCESS`, and the statuses and values of the two get calls. -/
structure ParamHw where
  setOk : Param → Bool
  shutterGetOk : Bool
  shutterReadback : Nat
  fpsGetOk : Bool
  fpsLowReadback : MMAL_RATIONAL
  fpsHighReadback : MMAL_RATIONAL

/-- The FPS read-back comparison at mmalcamera.cpp:189-190: field-by-field
inequality of the read-back pair against the committed pair. -/
def fps_readback_mismatch (hw : ParamHw) (lh : MMAL_RATIONAL × MMAL_RATIONAL) : Bool :=
  decide (hw.fpsLowReadback.num ≠ lh.1.num) || decide (hw.fpsLowReadback.den ≠ lh.1.den)
  || decide (hw.fpsHighReadback.num ≠ lh.2.num) || decide (hw.fpsHighReadback.den ≠ lh.2.den)

/-- The statements of `MMALCamera::set_camera_parameters`
(mmalcamera.cpp:133-199) in source order.  The buffer-size assignment at
line 154 is a plain field write bundled with the following step; the two
parameter get calls record no event of their own, and their read-back
values feed the two tolerance warnings. -/
def paramSteps (st : CamState) (hw : ParamHw) : List CallStep :=
  [CallStep.call [Event.set Param.awbMode] (hw.setOk Param.awbMode)
     "Failed to set AWB mode",
   CallStep.call [Event.setRational Param.saturation 10 0] (hw.setOk Param.saturation)
     "Failed to set saturation",
   CallStep.call [Event.setRational Param.digitalGain 1 1] (hw.setOk Param.digitalGain)
     "Failed to set digital gain",
   CallStep.call [Event.setRational Param.brightness 50 100] (hw.setOk Param.brightness)
     "Failed to set brightness",
   CallStep.call [Event.set Param.exposureMode] (hw.setOk Param.exposureMode)
     "Failed to set exposure mode",
   CallStep.call [Event.setCrop 0 0 4096 4096] (hw.setOk Param.inputCrop)
     "Failed to set ROI",
   CallStep.call [Event.bufferSizeToRecommended, Event.setBool Param.zeroCopy true]
     (hw.setOk Param.zeroCopy) "Failed to turn on zero-copy for video port",
   CallStep.call [Event.setBool Param.rawCapture true] (hw.setOk Param.rawCapture)
     "Failed to set raw capture",
   CallStep.call [Event.set Param.statsPass] (hw.setOk Param.statsPass)
     "Failed to set CAPTURE_STATS_PASS",
   CallStep.call [Event.setShutter st.shutter_speed] (hw.setOk Param.shutterSpeed)
     "Failed to set shutter speed",
   CallStep.call [] hw.shutterGetOk "Failed to get shutter speed",
   CallStep.warn (shutter_mismatch st.shutter_speed hw.shutterReadback)
     (Event.shutterWarning st.shutter_speed hw.shutterReadback),
   CallStep.call [Event.setFpsRange (deriveFpsRange st.shutter_speed st.fps_low st.fps_high).1
       (deriveFpsRange st.shutter_speed st.fps_low st.fps_high).2]
     (hw.setOk Param.fpsRange) "Failed to set FPS range",
   CallStep.call [] hw.fpsGetOk "Failed to get FPS range",
   CallStep.warn (fps_readback_mismatch hw (deriveFpsRange st.shutter_speed st.fps_low st.fps_high))
     (Event.fpsWarning (deriveFpsRange st.shutter_speed st.fps_low st.fps_high).1
       (deriveFpsRange st.shutter_speed st.fps_low st.fps_high).2
       hw.fpsLowReadback hw.fpsHighReadback),
   CallStep.call [Event.setRational Param.analogGain
       (analogGainRational st.gain).num (analogGainRational st.gain).den]
     (hw.setOk Param.analogGain) "Failed to set analog gain"]

/-- Embedding of `MMALCamera::set_camera_parameters` (mmalcamera.cpp:131-200). -/
def set_camera_parameters (st : CamState) (hw : ParamHw) : PState :=
  runSteps (paramSteps st hw) ([], none)

/-! ## `MMALCamera::abort` (mmalcamera.cpp:119-129)

Two statements in order: set the capture flag to 0 on the capture port,
`throw_if` on failure; then disable the whole component, `throw_if` on
failure.  A throw exits the function immediately. -/

/-- Hardware oracle for `abort`: whether each of its two calls returns
`MMAL_SUCCESS`. -/
structure AbortHw where
  clearCaptureOk : Bool
  disableComponentOk : Bool

/-- The hardware calls `abort` can make. -/
inductive AbortCall where
  | setCaptureFlagZero
  | disableComponent
deriving DecidableEq, Repr

/-- Embedding of `MMALCamera::abort` (mmalcamera.cpp:119-129): the ordered
list of calls attempted and the error, if any, raised by a `throw_if`. -/
def abort (hw : AbortHw) : List AbortCall × Option String :=
  if hw.clearCaptureOk = false then
    ([AbortCall.setCaptureFlagZero], some "Failed to abort capture")
  else if hw.disableComponentOk = false then
    ([AbortCall.setCaptureFlagZero, AbortCall.disableComponent],
      some "camera component couldn't be disabled")
  else
    ([AbortCall.setCaptureFlagZero, AbortCall.disableComponent], none)

/-! ## `MMALCamera::~MMALCamera` (mmalcamera.cpp:82-95)

Each port's disable is guarded by that port's `is_enabled` flag, and each
disable failure fires a `throw_if`, which exits the destructor
immediately. -/

/-- The `is_enabled` flags of the two ports the destructor looks at. -/
structure DtorPorts where
  capturePortEnabled : Bool
  controlEnabled : Bool

/-- Hardware oracle for the destructor: whether each disable call returns
`MMAL_SUCCESS`. -/
structure DtorHw where
  disableCaptureOk : Bool
  disableControlOk : Bool

/-- The hardware calls the destructor can make. -/
inductive DtorCall where
  | disableCapturePort
  | disableControlPort
deriving DecidableEq, Repr

/-- Embedding of `MMALCamera::~MMALCamera` (mmalcamera.cpp:82-95): the
ordered list of disable calls attempted and the error, if any, raised by a
`throw_if`. -/
def destructMMALCamera (ports : DtorPorts) (hw : DtorHw) :
    List DtorCall × Option String :=
  if ports.capturePortEnabled then
    if hw.disableCaptureOk = false then
      ([DtorCall.disableCapturePort], some "Failed to disable capture port")
    else if ports.controlEnabled then
      if hw.disableControlOk = false then
        ([DtorCall.disableCapturePort, DtorCall.disableControlPort],
          some "Failed to disable control port")
      else
        ([DtorCall.disableCapturePort, DtorCall.disableControlPort], none)
    else
      ([DtorCall.disableCapturePort], none)
  else if ports.controlEnabled then
    if hw.disableControlOk = false then
      ([DtorCall.disableControlPort], some "Failed to disable control port")
    else
      ([DtorCall.disableControlPort], none)
  else
    ([], none)

/-! ## `MMALCamera::get_sensor_info` (mmalcamera.cpp:251-287)

The probe component is created (line 257; the creation status is not
checked), the camera name defaults to "OV5647" (line 260), and a
deliberately undersized `mmal_port_parameter_get` is issued on the main
component's control port (lines 262-265) to detect the firmware variant.
If it fails ("running on newer firmware"), a full-size get is issued on
the probe component's control port and two `throw_if`s guard its status
and the camera index; a throw exits the function before the
`mmal_component_destroy` at line 286.  If it succeeds, the hardcoded
OV5647 defaults 2592 x 1944 are used.  On the throwing paths the `width`,
`height` and `cameraName` members are left as they were; the result fields
below then hold their pre-call values (0 / 0 / "OV5647", the line-260
default). -/

/-- One entry of `MMAL_PARAMETER_CAMERA_INFO_T::cameras`. -/
structure CameraInfoEntry where
  camera_name : String
  max_width : Nat
  max_height : Nat
deriving DecidableEq, Repr

/-- Hardware oracle for `get_sensor_info`: the statuses of the two
parameter gets and the sensor list the full-size get reports
(`num_cameras` is its length). -/
structure ProbeHw where
  undersizedGetOk : Bool
  fullGetOk : Bool
  cameras : List CameraInfoEntry

/-- The hardware calls `get_sensor_info` can make. -/
inductive ProbeCall where
  | createInfoComponent
  | undersizedGet
  | fullGet
  | destroyInfoComponent
deriving DecidableEq, Repr

/-- Result of `get_sensor_info`: the calls made, the adopted sensor
descriptor fields, and the error, if any, raised by a `throw_if`. -/
structure SensorInfoResult where
  calls : List ProbeCall
  cameraName : String
  width : Nat
  height : Nat
  error : Option String
deriving DecidableEq, Repr

/-- Embedding of `MMALCamera::get_sensor_info` (mmalcamera.cpp:251-287). -/
def get_sensor_info (cameraNum : Nat) (hw : ProbeHw) : SensorInfoResult :=
  if hw.undersizedGetOk = false then
    if hw.fullGetOk = false then
      { calls := [ProbeCall.createInfoComponent, ProbeCall.undersizedGet, ProbeCall.fullGet],
        cameraName := "OV5647", width := 0, height := 0,
        error := some "Failed to get camera parameters." }
    else if hw.cameras.length ≤ cameraNum then
      { calls := [ProbeCall.createInfoComponent, ProbeCall.undersizedGet, ProbeCall.fullGet],
        cameraName := "OV5647", width := 0, height := 0,
        error := some "Camera number not found." }
    else
      let cam := hw.cameras.getD cameraNum ⟨"", 0, 0⟩
      { calls := [ProbeCall.createInfoComponent, ProbeCall.undersizedGet, ProbeCall.fullGet,
          ProbeCall.destroyInfoComponent],
        cameraName := cam.camera_name, width := cam.max_width, height := cam.max_height,
        error := none }
  else
    { calls := [ProbeCall.createInfoComponent, ProbeCall.undersizedGet,
        ProbeCall.destroyInfoComponent],
      cameraName := "OV5647", width := 2592, height := 1944,
      error := none }

/-! ## `MMALCamera::set_capture_port_format` (mmalcamera.cpp:212-241)

The port's format struct is mutated in place: line 218 unconditionally
overwrites the encoding with `MMAL_ENCODING_OPAQUE` and the variant with
0; lines 220-226 then swap RGB24 and BGR24 when
`mmal_util_rgb_order_fixed` reports a non-fixed order; lines 228-238 set
the remaining fields from the sensor's maximum dimensions. -/

/-- The encodings distinguished by `set_capture_port_format`. -/
inductive MMALEncoding where
  | OPAQUE
  | RGB24
  | BGR24
  | otherEncoding
deriving DecidableEq, Repr

/-- The fields of the port's `MMAL_ES_FORMAT_T` that
`set_capture_port_format` writes. -/
structure PortFormat where
  encoding : MMALEncoding
  encoding_variant : Int
  video_width : Nat
  video_height : Nat
  crop_x : Int
  crop_y : Int
  crop_width : Int
  crop_height : Int
  frame_rate_num : Int
  frame_rate_den : Int
  par_num : Int
  par_den : Int
deriving DecidableEq, Repr

/-- Embedding of `MMALCamera::set_capture_port_format`
(mmalcamera.cpp:212-241): the format committed to the capture port, given
the port's prior format (the requested encoding), whether the port
reports a fixed RGB order, and the sensor's maximum dimensions. -/
def set_capture_port_format (prior : PortFormat) (rgb_order_fixed : Bool)
    (width height : Nat) : PortFormat :=
  let fmt := { prior with encoding := MMALEncoding.OPAQUE, encoding_variant := 0 }
  let fmt := if rgb_order_fixed = false then
      if fmt.encoding = MMALEncoding.RGB24 then
        { fmt with encoding := MMALEncoding.BGR24 }
      else if fmt.encoding = MMALEncoding.BGR24 then
        { fmt with encoding := MMALEncoding.RGB24 }
      else fmt
    else fmt
  { fmt with
    encoding_variant := 0
    video_width := width
    video_height := height
    crop_x := 0
    crop_y := 0
    crop_width := (width : Int)
    crop_height := (height : Int)
    frame_rate_num := 0
    frame_rate_den := 1
    par_num := 1
    par_den := 1 }

/-! ## Generic facts about the step interpreter -/

theorem mem_of_pstep {e : Event} {s : PState} {ev : List Event} {ok : Bool}
    {msg : String} (h : e ∈ (pstep s ev ok msg).1) : e ∈ s.1 ∨ e ∈ ev := by
  rcases s with ⟨t, err⟩
  cases err <;> simp [pstep] at h ⊢ <;> tauto

theorem mem_of_pwarn {e : Event} {s : PState} {cond : Bool} {ev : Event}
    (h : e ∈ (pwarn s cond ev).1) : e ∈ s.1 ∨ e = ev := by
  rcases s with ⟨t, err⟩
  cases err <;> cases cond <;> simp [pwarn] at h ⊢ <;> tauto

theorem mem_pstep_of_mem {e : Event} {s : PState} (ev : List Event) (ok : Bool)
    (msg : String) (h : e ∈ s.1) : e ∈ (pstep s ev ok msg).1 := by
  rcases s with ⟨t, err⟩
  cases err <;> simp [pstep] <;> tauto

theorem mem_pwarn_of_mem {e : Event} {s : PState} (cond : Bool) (ev : Event)
    (h : e ∈ s.1) : e ∈ (pwarn s cond ev).1 := by
  rcases s with ⟨t, err⟩
  cases err <;> cases cond <;> simp [pwarn] <;> tauto

/-- Every event a run records comes from the state it started in or from
one of its steps. -/
theorem mem_concat_of_runSteps {e : Event} :
    ∀ (steps : List CallStep) (s : PState), e ∈ (runSteps steps s).1 →
      e ∈ s.1 ∨ e ∈ concatEvents stepEvents steps := by
  intro steps
  induction steps with
  | nil => intro s h; exact Or.inl h
  | cons c rest ih =>
    intro s h
    cases c with
    | call ev ok msg =>
      rcases ih (pstep s ev ok msg) h with h1 | h1
      · rcases mem_of_pstep h1 with h2 | h2
        · exact Or.inl h2
        · exact Or.inr (by simp [concatEvents, stepEvents]; tauto)
      · exact Or.inr (by simp [concatEvents]; tauto)
    | warn cond ev =>
      rcases ih (pwarn s cond ev) h with h1 | h1
      · rcases mem_of_pwarn h1 with h2 | h2
        · exact Or.inl h2
        · exact Or.inr (by simp [concatEvents, stepEvents]; tauto)
      · exact Or.inr (by simp [concatEvents]; tauto)

/-- The trace only grows as the run proceeds. -/
theorem runSteps_mono {e : Event} :
    ∀ (steps : List CallStep) (s : PState), e ∈ s.1 → e ∈ (runSteps steps s).1 := by
  intro steps
  induction steps with
  | nil => intro s h; exact h
  | cons c rest ih =>
    intro s h
    cases c with
    | call ev ok msg => exact ih _ (mem_pstep_of_mem ev ok msg h)
    | warn cond ev => exact ih _ (mem_pwarn_of_mem cond ev h)

/-- A run all of whose calls succeed completes with no error and records
exactly the reached-with-no-error events of every step, in order. -/
theorem runSteps_all_ok :
    ∀ (steps : List CallStep), (∀ c ∈ steps, stepOk c = true) →
      ∀ t : List Event, runSteps steps (t, none) =
        (t ++ concatEvents stepOkEvents steps, none) := by
  intro steps
  induction steps with
  | nil => intro _ t; simp [runSteps, concatEvents]
  | cons c rest ih =>
    intro hok t
    have hc : stepOk c = true := hok c (by simp)
    have hrest : ∀ c' ∈ rest, stepOk c' = true := fun c' hc' => hok c' (by simp [hc'])
    cases c with
    | call ev ok msg =>
      have hok' : ok = true := hc
      subst hok'
      show runSteps rest (pstep (t, none) ev true msg) = _
      have hp : pstep (t, none) ev true msg = (t ++ ev, none) := rfl
      rw [hp, ih hrest]
      simp [concatEvents, stepOkEvents]
    | warn cond ev =>
      show runSteps rest (pwarn (t, none) cond ev) = _
      cases cond with
      | false =>
        have hp : pwarn (t, none) false ev = (t, none) := rfl
        rw [hp, ih hrest]
        simp [concatEvents, stepOkEvents]
      | true =>
        have hp : pwarn (t, none) true ev = (t ++ [ev], none) := rfl
        rw [hp, ih hrest]
        simp [concatEvents, stepOkEvents]

/-! ## Claims about `abort`, the destructor, the sensor probe and the
capture-port format -/

/-- C4, counterexample: when clearing the capture flag fails, `throw_if`
exits `abort` at mmalcamera.cpp:123 and the component disable at line 125
is never attempted, contradicting the claim that both steps are attempted
in every invocation. -/
theorem claim_C4_counterexample :
    AbortCall.disableComponent ∉ (abort ⟨false, true⟩).1 ∧
    (abort ⟨false, true⟩).2 = some "Failed to abort capture" := by
  constructor
  · decide
  · rfl

/-- C4, amended: `abort` always attempts the capture-flag clear; the
component disable is attempted exactly when the clear succeeded; a failure
of either attempted step is reported as the corresponding AbortError
message, and the fail-fast exit means a clear failure suppresses the
disable attempt. -/
theorem claim_C4_abort_failfast (hw : AbortHw) :
    AbortCall.setCaptureFlagZero ∈ (abort hw).1 ∧
    (AbortCall.disableComponent ∈ (abort hw).1 ↔ hw.clearCaptureOk = true) ∧
    ((abort hw).2 = none ↔ hw.clearCaptureOk = true ∧ hw.disableComponentOk = true) := by
  rcases hw with ⟨c, d⟩
  cases c <;> cases d <;> simp [abort]

/-- C5, counterexample: with both ports enabled, a failing capture-port
disable makes the destructor throw at mmalcamera.cpp:88, so the control
port disable at line 92 is never attempted, contradicting the claim that
one failure does not prevent the other disable. -/
theorem claim_C5_counterexample :
    DtorCall.disableControlPort ∉ (destructMMALCamera ⟨true, true⟩ ⟨false, true⟩).1 ∧
    (destructMMALCamera ⟨true, true⟩ ⟨false, true⟩).2 =
      some "Failed to disable capture port" := by
  constructor
  · decide
  · rfl

/-- C5, amended: during destruction with both ports enabled, a failure to
disable the capture port raises the TeardownError for that port and exits
immediately: the control-port disable is not attempted (fail-fast, not
best-effort teardown). -/
theorem claim_C5_destruct_failfast (ports : DtorPorts) (hw : DtorHw)
    (h1 : ports.capturePortEnabled = true) (h2 : ports.controlEnabled = true)
    (h3 : hw.disableCaptureOk = false) :
    (destructMMALCamera ports hw).1 = [DtorCall.disableCapturePort] ∧
    (destructMMALCamera ports hw).2 = some "Failed to disable capture port" ∧
    DtorCall.disableControlPort ∉ (destructMMALCamera ports hw).1 := by
  rcases ports with ⟨p1, p2⟩
  rcases hw with ⟨d1, d2⟩
  subst h1; subst h2; subst h3
  simp [destructMMALCamera]

/-- C5, witness. -/
theorem claim_C5_destruct_failfast_witness :
    (⟨true, true⟩ : DtorPorts).capturePortEnabled = true ∧
    (destructMMALCamera ⟨true, true⟩ ⟨false, true⟩).1 = [DtorCall.disableCapturePort] ∧
    (destructMMALCamera ⟨true, true⟩ ⟨false, true⟩).2 =
      some "Failed to disable capture port" :=
  ⟨rfl, (claim_C5_destruct_failfast ⟨true, true⟩ ⟨false, true⟩ rfl rfl rfl).1,
    (claim_C5_destruct_failfast ⟨true, true⟩ ⟨false, true⟩ rfl rfl rfl).2.1⟩

/-- C9: a destructor run on a resource whose capture port and control
channel were never enabled makes no disable call and raises no error. -/
theorem claim_C9_destruct_noop (hw : DtorHw) :
    destructMMALCamera ⟨false, false⟩ hw = ([], none) := by
  simp [destructMMALCamera]

/-- C6, counterexample: when the full-size camera-info query succeeds but
the camera index is out of range, the `throw_if` at mmalcamera.cpp:273
exits `get_sensor_info` before the `mmal_component_destroy` at line 286,
so the probe component is not destroyed on that path, contradicting the
claim that it is destroyed on every path. -/
theorem claim_C6_counterexample :
    ProbeCall.destroyInfoComponent ∉ (get_sensor_info 0 ⟨false, true, []⟩).calls ∧
    (get_sensor_info 0 ⟨false, true, []⟩).error = some "Camera number not found." := by
  constructor
  · decide
  · rfl

/-- C6, amended: the probe component is destroyed exactly on the
non-throwing paths: `mmal_component_destroy` is reached iff no `throw_if`
fired, i.e. iff `get_sensor_info` returns without error; on the two
throwing paths (failed full-size query, camera index out of range) the
probe component is leaked. -/
theorem claim_C6_destroy_iff_no_error (cameraNum : Nat) (hw : ProbeHw) :
    ProbeCall.destroyInfoComponent ∈ (get_sensor_info cameraNum hw).calls ↔
      (get_sensor_info cameraNum hw).error = none := by
  rcases hw with ⟨u, f, cams⟩
  cases u <;> cases f <;> by_cases hlen : cams.length ≤ cameraNum <;>
    simp [get_sensor_info, hlen]

/-- C8: when the firmware probe path is taken (the undersized get fails)
and the full-size camera-info query succeeds, an index at or beyond the
reported sensor count makes construction fail with the SelectionError
"Camera number not found.", and a valid index adopts that sensor's name
and maximum resolution, which is non-zero whenever the sensor reports
non-zero dimensions. -/
theorem claim_C8_selection (cameraNum : Nat) (hw : ProbeHw)
    (hu : hw.undersizedGetOk = false) (hf : hw.fullGetOk = true) :
    (hw.cameras.length ≤ cameraNum →
      (get_sensor_info cameraNum hw).error = some "Camera number not found.") ∧
    (∀ h : cameraNum < hw.cameras.length,
      (get_sensor_info cameraNum hw).error = none ∧
      (get_sensor_info cameraNum hw).cameraName =
        (hw.cameras.get ⟨cameraNum, h⟩).camera_name ∧
      (get_sensor_info cameraNum hw).width = (hw.cameras.get ⟨cameraNum, h⟩).max_width ∧
      (get_sensor_info cameraNum hw).height = (hw.cameras.get ⟨cameraNum, h⟩).max_height ∧
      (0 < (hw.cameras.get ⟨cameraNum, h⟩).max_width →
        0 < (get_sensor_info cameraNum hw).width) ∧
      (0 < (hw.cameras.get ⟨cameraNum, h⟩).max_height →
        0 < (get_sensor_info cameraNum hw).height)) := by
  rcases hw with ⟨u, f, cams⟩
  subst hu; subst hf
  constructor
  · intro hlen
    simp [get_sensor_info, hlen]
  · intro h
    have h' : cameraNum < cams.length := h
    have hlen : ¬ cams.length ≤ cameraNum := by omega
    simp [get_sensor_info, hlen, List.getElem?_eq_getElem h', List.get_eq_getElem]

/-- C8, witness: one probed sensor; index 1 is rejected with the
SelectionError, index 0 adopts the probed name and non-zero resolution. -/
theorem claim_C8_selection_witness :
    (get_sensor_info 1 ⟨false, true, [⟨"imx477", 4056, 3040⟩]⟩).error =
      some "Camera number not found." ∧
    (get_sensor_info 0 ⟨false, true, [⟨"imx477", 4056, 3040⟩]⟩).error = none ∧
    (get_sensor_info 0 ⟨false, true, [⟨"imx477", 4056, 3040⟩]⟩).cameraName = "imx477" ∧
    0 < (get_sensor_info 0 ⟨false, true, [⟨"imx477", 4056, 3040⟩]⟩).width := by
  refine ⟨(claim_C8_selection 1 ⟨false, true, [⟨"imx477", 4056, 3040⟩]⟩ rfl rfl).1
      (by decide), ?_, ?_, ?_⟩
  · exact ((claim_C8_selection 0 ⟨false, true, [⟨"imx477", 4056, 3040⟩]⟩ rfl rfl).2
      (by decide)).1
  · exact ((claim_C8_selection 0 ⟨false, true, [⟨"imx477", 4056, 3040⟩]⟩ rfl rfl).2
      (by decide)).2.1
  · exact ((claim_C8_selection 0 ⟨false, true, [⟨"imx477", 4056, 3040⟩]⟩ rfl rfl).2
      (by decide)).2.2.2.2.1 (by decide)

/-- C7, counterexample: a port whose prior (requested) encoding is RGB24
and which reports a non-fixed RGB order does not end up committed as
BGR24: line 218 has already overwritten the encoding with
`MMAL_ENCODING_OPAQUE` before the swap check at lines 220-226, so the
swap branches are dead and the committed encoding is OPAQUE. -/
theorem claim_C7_counterexample :
    (set_capture_port_format ⟨MMALEncoding.RGB24, 0, 0, 0, 0, 0, 0, 0, 0, 1, 1, 1⟩
        false 4056 3040).encoding ≠ MMALEncoding.BGR24 := by
  decide

/-- C7, amended: the second spec sentence holds and the first is vacuous:
the committed pixel encoding is always the opaque vendor-internal format
with variant 0, for every prior (requested) encoding and every RGB-order
report, because the unconditional overwrite at mmalcamera.cpp:218
precedes the RGB24/BGR24 swap check, leaving the swap branches
unreachable. -/
theorem claim_C7_encoding_always_opaque (prior : PortFormat)
    (rgb_order_fixed : Bool) (width height : Nat) :
    (set_capture_port_format prior rgb_order_fixed width height).encoding =
      MMALEncoding.OPAQUE ∧
    (set_capture_port_format prior rgb_order_fixed width height).encoding_variant = 0 := by
  cases rgb_order_fixed <;> simp [set_capture_port_format]

/-! ## Claims about `set_camera_parameters` -/

/-- Helper: events of the second statement of a run are recorded whenever
the first call succeeded, regardless of the second call's own status. -/
theorem mem_runSteps_second {e : Event} (ev1 ev2 : List Event) (ok1 ok2 : Bool)
    (m1 m2 : String) (rest : List CallStep) (h1 : ok1 = true) (he : e ∈ ev2) :
    e ∈ (runSteps (CallStep.call ev1 ok1 m1 :: CallStep.call ev2 ok2 m2 :: rest)
      ([], none)).1 := by
  subst h1
  show e ∈ (runSteps rest (pstep (pstep ([], none) ev1 true m1) ev2 ok2 m2)).1
  apply runSteps_mono
  show e ∈ ev1 ++ ev2
  exact List.mem_append_right _ he

/-- C1: the FPS pair committed by `set_camera_parameters` is always the one
derived by the three-regime selection from `shutter_speed` and the default
bounds discovered at construction; the three regimes are exactly those of
mmalcamera.cpp:173-184, and the three sample shutter speeds of the spec
land in the three regimes. -/
theorem claim_C1_fps_regimes (st : CamState) (hw : ParamHw) (lo hi : MMAL_RATIONAL) :
    (Event.setFpsRange lo hi ∈ (set_camera_parameters st hw).1 →
      (lo, hi) = deriveFpsRange st.shutter_speed st.fps_low st.fps_high) ∧
    (6000000 < st.shutter_speed →
      deriveFpsRange st.shutter_speed st.fps_low st.fps_high = (⟨5, 1000⟩, ⟨166, 1000⟩)) ∧
    (1000000 < st.shutter_speed ∧ st.shutter_speed ≤ 6000000 →
      deriveFpsRange st.shutter_speed st.fps_low st.fps_high = (⟨167, 1000⟩, ⟨999, 1000⟩)) ∧
    (st.shutter_speed ≤ 1000000 →
      deriveFpsRange st.shutter_speed st.fps_low st.fps_high = (st.fps_low, st.fps_high)) ∧
    deriveFpsRange 7000000 st.fps_low st.fps_high = (⟨5, 1000⟩, ⟨166, 1000⟩) ∧
    deriveFpsRange 2000000 st.fps_low st.fps_high = (⟨167, 1000⟩, ⟨999, 1000⟩) ∧
    deriveFpsRange 500000 st.fps_low st.fps_high = (st.fps_low, st.fps_high) := by
  refine ⟨?_, ?_, ?_, ?_, ?_, ?_, ?_⟩
  · intro hmem
    rcases mem_concat_of_runSteps (paramSteps st hw) ([], none) hmem with h0 | h0
    · simp at h0
    · simp [paramSteps, concatEvents, stepEvents] at h0
      obtain ⟨h1, h2⟩ := h0
      subst h1; subst h2
      rfl
  · intro h6
    simp [deriveFpsRange, h6]
  · rintro ⟨hgt, hle⟩
    have h1 : ¬ st.shutter_speed > 6000000 := by omega
    simp [deriveFpsRange, h1, hgt]
  · intro hle
    have h1 : ¬ st.shutter_speed > 6000000 := by omega
    have h2 : ¬ st.shutter_speed > 1000000 := by omega
    simp [deriveFpsRange, h1, h2]
  · norm_num [deriveFpsRange]
  · norm_num [deriveFpsRange]
  · norm_num [deriveFpsRange]

/-- C1, witness: the three sample shutter speeds against default bounds
30/1 and 31/1. -/
theorem claim_C1_fps_regimes_witness :
    6000000 < 7000000 ∧
    deriveFpsRange 7000000 ⟨30, 1⟩ ⟨31, 1⟩ = (⟨5, 1000⟩, ⟨166, 1000⟩) ∧
    deriveFpsRange 2000000 ⟨30, 1⟩ ⟨31, 1⟩ = (⟨167, 1000⟩, ⟨999, 1000⟩) ∧
    deriveFpsRange 500000 ⟨30, 1⟩ ⟨31, 1⟩ = (⟨30, 1⟩, ⟨31, 1⟩) := by
  refine ⟨by norm_num, ?_, ?_, ?_⟩
  · exact (claim_C1_fps_regimes ⟨7000000, 2, ⟨30, 1⟩, ⟨31, 1⟩⟩
      ⟨fun _ => true, true, 0, true, ⟨0, 0⟩, ⟨0, 0⟩⟩ ⟨0, 0⟩ ⟨0, 0⟩).2.1 (by norm_num)
  · exact (claim_C1_fps_regimes ⟨2000000, 2, ⟨30, 1⟩, ⟨31, 1⟩⟩
      ⟨fun _ => true, true, 0, true, ⟨0, 0⟩, ⟨0, 0⟩⟩ ⟨0, 0⟩ ⟨0, 0⟩).2.2.1
      (by norm_num)
  · exact (claim_C1_fps_regimes ⟨500000, 2, ⟨30, 1⟩, ⟨31, 1⟩⟩
      ⟨fun _ => true, true, 0, true, ⟨0, 0⟩, ⟨0, 0⟩⟩ ⟨0, 0⟩ ⟨0, 0⟩).2.2.2.1
      (by norm_num)

/-- C10: every saturation commit of `set_camera_parameters` carries exactly
the numerator/denominator pair (10, 0) of mmalcamera.cpp:136 — a rational
with denominator zero — and the commit is reached in every invocation in
which the preceding AWB call succeeds. -/
theorem claim_C10_saturation (st : CamState) (hw : ParamHw) :
    (∀ num den : Int,
      Event.setRational Param.saturation num den ∈ (set_camera_parameters st hw).1 →
        num = 10 ∧ den = 0) ∧
    (hw.setOk Param.awbMode = true →
      Event.setRational Param.saturation 10 0 ∈ (set_camera_parameters st hw).1) := by
  constructor
  · intro num den hmem
    rcases mem_concat_of_runSteps (paramSteps st hw) ([], none) hmem with h0 | h0
    · simp at h0
    · simp [paramSteps, concatEvents, stepEvents] at h0
      exact h0
  · intro hawb
    exact mem_runSteps_second _ _ _ _ _ _ _ hawb (by simp)

/-- C10, witness: a run with an all-success oracle records the (10, 0)
saturation commit. -/
theorem claim_C10_saturation_witness :
    ((⟨fun _ => true, true, 50000, true, ⟨167, 1000⟩, ⟨999, 1000⟩⟩ : ParamHw).setOk
      Param.awbMode = true) ∧
    Event.setRational Param.saturation 10 0 ∈
      (set_camera_parameters ⟨50000, 2, ⟨167, 1000⟩, ⟨999, 1000⟩⟩
        ⟨fun _ => true, true, 50000, true, ⟨167, 1000⟩, ⟨999, 1000⟩⟩).1 :=
  ⟨rfl, (claim_C10_saturation ⟨50000, 2, ⟨167, 1000⟩, ⟨999, 1000⟩⟩
    ⟨fun _ => true, true, 50000, true, ⟨167, 1000⟩, ⟨999, 1000⟩⟩).2 rfl⟩

/-- Helper: on non-negative rationals, C's truncation toward zero agrees
with the floor. -/
theorem ratTruncToZero_eq_floor {q : ℚ} (h : 0 ≤ q) : ratTruncToZero q = ⌊q⌋ := by
  unfold ratTruncToZero
  rw [Int.tdiv_eq_ediv (Rat.num_nonneg.mpr h) (Int.natCast_nonneg q.den)]
  exact Rat.floor_def.symm

/-- C3, counterexample: the analog-gain numerator is the truncation of
gain x 65536, not its rounding: at gain = 262145/131072 (a dyadic value
representable in the source's floating type, about 2.0000076) the product
is 131072.5, which the `static_cast<int32_t>` at mmalcamera.cpp:196
truncates to 131072 while rounding gives 131073. -/
theorem claim_C3_counterexample :
    (analogGainRational (262145 / 131072)).den = 65536 ∧
    (analogGainRational (262145 / 131072)).num ≠
      round ((262145 / 131072 : ℚ) * 65536) := by
  have h1 : ((262145 / 131072 : ℚ) * 65536) = 262145 / 2 := by norm_num
  have h2 : round ((262145 : ℚ) / 2) = 131073 := by
    rw [round_eq]
    have h : ((262145 : ℚ) / 2 + 1 / 2) = ((131073 : Int) : ℚ) := by norm_num
    rw [h, Int.floor_intCast]
  have h3 : (analogGainRational (262145 / 131072)).num = 131072 := by
    show ratTruncToZero ((262145 / 131072 : ℚ) * 65536) = 131072
    rw [h1, ratTruncToZero_eq_floor (by positivity)]
    rw [Int.floor_eq_iff]
    constructor <;> norm_num
  refine ⟨rfl, ?_⟩
  rw [h1, h2, h3]
  norm_num

/-- C3, amended: `set_camera_parameters` commits the analog gain as a
rational with denominator 65536 whose numerator is gain x 65536 truncated
toward zero (for the positive gains of the interface this is the floor,
not the rounding); gain = 2.0 still yields exactly (131072, 65536). -/
theorem claim_C3_analog_gain (st : CamState) (hw : ParamHw) (num den : Int) :
    (Event.setRational Param.analogGain num den ∈ (set_camera_parameters st hw).1 →
      num = ratTruncToZero (st.gain * 65536) ∧ den = 65536) ∧
    (0 ≤ st.gain → ratTruncToZero (st.gain * 65536) = ⌊st.gain * 65536⌋) ∧
    analogGainRational 2 = ⟨131072, 65536⟩ := by
  refine ⟨?_, ?_, ?_⟩
  · intro hmem
    rcases mem_concat_of_runSteps (paramSteps st hw) ([], none) hmem with h0 | h0
    · simp at h0
    · simp [paramSteps, concatEvents, stepEvents, analogGainRational] at h0
      exact h0
  · intro hg
    exact ratTruncToZero_eq_floor (by positivity)
  · have h : ((2 : ℚ) * 65536) = ((131072 : Int) : ℚ) := by norm_num
    unfold analogGainRational
    rw [h, ratTruncToZero_eq_floor (by positivity), Int.floor_intCast]

/-- C3, witness: gain 2 is non-negative, its truncation is its floor, and
it maps to exactly (131072, 65536). -/
theorem claim_C3_analog_gain_witness :
    (0 : ℚ) ≤ 2 ∧
    ratTruncToZero ((2 : ℚ) * 65536) = ⌊(2 : ℚ) * 65536⌋ ∧
    analogGainRational 2 = ⟨131072, 65536⟩ :=
  ⟨by norm_num,
   (claim_C3_analog_gain ⟨50000, 2, ⟨167, 1000⟩, ⟨999, 1000⟩⟩
     ⟨fun _ => true, true, 50000, true, ⟨167, 1000⟩, ⟨999, 1000⟩⟩ 0 0).2.1 (by norm_num),
   (claim_C3_analog_gain ⟨50000, 2, ⟨167, 1000⟩, ⟨999, 1000⟩⟩
     ⟨fun _ => true, true, 50000, true, ⟨167, 1000⟩, ⟨999, 1000⟩⟩ 0 0).2.2⟩

/-- C2, counterexample: with requested shutter speed S = 50000 and an
exact read-back r = 50000 (so |r - S| = 0 <= 100000), the `uint32_t`
subtraction `shutter_speed - 100000` at mmalcamera.cpp:167 wraps to
2^32 - 50000, the comparison holds, and the tolerance warning is emitted
— contradicting the claim that no warning is emitted when
|r - S| <= 100000. -/
theorem claim_C2_counterexample :
    Event.shutterWarning 50000 50000 ∈
      (set_camera_parameters ⟨50000, 2, ⟨167, 1000⟩, ⟨999, 1000⟩⟩
        ⟨fun _ => true, true, 50000, true, ⟨167, 1000⟩, ⟨999, 1000⟩⟩).1 ∧
    ((50000 : Int) - 50000).natAbs ≤ 100000 ∧
    (set_camera_parameters ⟨50000, 2, ⟨167, 1000⟩, ⟨999, 1000⟩⟩
      ⟨fun _ => true, true, 50000, true, ⟨167, 1000⟩, ⟨999, 1000⟩⟩).2 = none := by
  refine ⟨by decide, by norm_num, by decide⟩

/-- C2, amended: under an all-success oracle, `set_camera_parameters`
completes without error and the shutter tolerance warning is emitted iff
the `uint32_t` condition of mmalcamera.cpp:167 holds; that condition
agrees with |readback - requested| > 100000 exactly when
100000 <= shutter_speed and shutter_speed + 100000 < 2^32 (for
shutter_speed < 100000 the subtraction wraps and the warning also fires
on exact matches). -/
theorem claim_C2_shutter_tolerance (st : CamState) (hw : ParamHw)
    (hset : ∀ p, hw.setOk p = true) (hg1 : hw.shutterGetOk = true)
    (hg2 : hw.fpsGetOk = true) :
    (set_camera_parameters st hw).2 = none ∧
    (Event.shutterWarning st.shutter_speed hw.shutterReadback ∈
        (set_camera_parameters st hw).1 ↔
      shutter_mismatch st.shutter_speed hw.shutterReadback = true) ∧
    (100000 ≤ st.shutter_speed → st.shutter_speed + 100000 < UINT32_MOD →
      (shutter_mismatch st.shutter_speed hw.shutterReadback = true ↔
        100000 < ((hw.shutterReadback : Int) - (st.shutter_speed : Int)).natAbs)) := by
  have hok : ∀ c ∈ paramSteps st hw, stepOk c = true := by
    intro c hc
    simp [paramSteps] at hc
    rcases hc with rfl | rfl | rfl | rfl | rfl | rfl | rfl | rfl | rfl | rfl | rfl |
      rfl | rfl | rfl | rfl | rfl <;> simp [stepOk, hset, hg1, hg2]
  have hrun : set_camera_parameters st hw =
      ([] ++ concatEvents stepOkEvents (paramSteps st hw), none) :=
    runSteps_all_ok (paramSteps st hw) hok []
  refine ⟨?_, ?_, ?_⟩
  · rw [hrun]
  · rw [hrun]
    by_cases hm : shutter_mismatch st.shutter_speed hw.shutterReadback = true <;>
      by_cases hf : fps_readback_mismatch hw
        (deriveFpsRange st.shutter_speed st.fps_low st.fps_high) = true <;>
      simp [paramSteps, concatEvents, stepOkEvents, hm, hf]
  · intro hS1 hS2
    simp only [UINT32_MOD] at hS2
    simp only [shutter_mismatch, UINT32_MOD, Bool.or_eq_true, decide_eq_true_eq]
    omega

/-- C2, witness: shutter speed 500000 with read-back 5000000 under an
all-success oracle: the run completes without error and the warning fires
iff the code condition holds; the range side conditions hold, so the code
condition agrees with |r - S| > 100000 there. -/
theorem claim_C2_shutter_tolerance_witness :
    (set_camera_parameters ⟨500000, 2, ⟨167, 1000⟩, ⟨999, 1000⟩⟩
      ⟨fun _ => true, true, 5000000, true, ⟨167, 1000⟩, ⟨999, 1000⟩⟩).2 = none ∧
    (Event.shutterWarning 500000 5000000 ∈
        (set_camera_parameters ⟨500000, 2, ⟨167, 1000⟩, ⟨999, 1000⟩⟩
          ⟨fun _ => true, true, 5000000, true, ⟨167, 1000⟩, ⟨999, 1000⟩⟩).1 ↔
      shutter_mismatch 500000 5000000 = true) ∧
    (shutter_mismatch 500000 5000000 = true ↔
      100000 < ((5000000 : Int) - 500000).natAbs) :=
  ⟨(claim_C2_shutter_tolerance ⟨500000, 2, ⟨167, 1000⟩, ⟨999, 1000⟩⟩
      ⟨fun _ => true, true, 5000000, true, ⟨167, 1000⟩, ⟨999, 1000⟩⟩
      (fun _ => rfl) rfl rfl).1,
   (claim_C2_shutter_tolerance ⟨500000, 2, ⟨167, 1000⟩, ⟨999, 1000⟩⟩
      ⟨fun _ => true, true, 5000000, true, ⟨167, 1000⟩, ⟨999, 1000⟩⟩
      (fun _ => rfl) rfl rfl).2.1,
   (claim_C2_shutter_tolerance ⟨500000, 2, ⟨167, 1000⟩, ⟨999, 1000⟩⟩
      ⟨fun _ => true, true, 5000000, true, ⟨167, 1000⟩, ⟨999, 1000⟩⟩
      (fun _ => rfl) rfl rfl).2.2 (by norm_num) (by norm_num [UINT32_MOD])⟩
